import Mathlib

/-!
Verification development for the Bento entity/component core
(`src/js/entity.js`, `src/js/components/fill.js`, `src/js/renderers/webgl.js`).

The JavaScript sources are shallowly embedded: numbers become rationals,
JS objects become structures, optional hooks become `Bool` presence flags,
side effects (hook invocations, log calls, canvas operations) become
explicit event traces, and nullable values become `Option`.
-/

set_option autoImplicit false

namespace Bento

/-! ## Math primitives (`bento/math/vector2`, `bento/math/rectangle`) -/

/-- A 2D vector, as produced by the `Vector2` constructor. -/
structure Vector2 where
  x : ℚ
  y : ℚ
deriving DecidableEq, Repr

/-- An axis-aligned rectangle, as produced by the `Rectangle` constructor. -/
structure Rectangle where
  x : ℚ
  y : ℚ
  width : ℚ
  height : ℚ
deriving DecidableEq, Repr

/-- Modelled from the spec: the module `bento/math/rectangle` is not among the
sources; section 4.2 of the spec fixes its overlap test as the half-open AABB
test, "overlap iff both axes have `min < other.max` and `max > other.min`". -/
def Rectangle.intersect (r o : Rectangle) : Bool :=
  (r.x < o.x + o.width) && (r.x + r.width > o.x) &&
    (r.y < o.y + o.height) && (r.y + r.height > o.y)

/-- Modelled from the spec: the module `bento/math/rectangle` is not among the
sources; section 4.2 of the spec describes `offset` as "this entity's bounding
box offset by an optional vector", i.e. a translation of the box. -/
def Rectangle.offset (r : Rectangle) (v : Vector2) : Rectangle :=
  { x := r.x + v.x, y := r.y + v.y, width := r.width, height := r.height }

/-! ## Components and entities (`src/js/entity.js`)

A component is "any value" with an optional subset of lifecycle hooks; we
record hook presence as `Bool` flags and give each component a numeric tag
`cid` so event traces can name the component that received a hook call.
`parentSet` models truthiness of the JS `parent` back-reference. -/

structure Comp where
  cid : ℕ
  parentSet : Bool
  isAdded : Bool
  hasInit : Bool
  hasAttached : Bool
  hasStart : Bool
  hasDraw : Bool
  hasPostDraw : Bool
  hasOnParentCollided : Bool
deriving DecidableEq, Repr

/-- The entity state used by the embedded operations.  `ancestorsAdded` lists
the `isAdded` flags of the parent, grandparent, ... along the `parent` chain
(the only ancestor data `Entity.prototype.attach` consults).  A `none` entry in
`components` is a slot nulled by `remove`. -/
structure Entity where
  id : ℕ
  position : Vector2
  origin : Vector2
  scale : Vector2
  dimension : Rectangle
  boundingBox : Option Rectangle
  visible : Bool
  isAdded : Bool
  ancestorsAdded : List Bool
  components : List (Option Comp)
  hasOnCollide : Bool
deriving DecidableEq, Repr

/-- Embeds `Entity.prototype.getBoundingBox`.  The JS swap idiom
`x2 = [x1, x1 = x2][0]` exchanges `x1` and `x2`; it is rendered here by the
primed corner values. -/
def Entity.getBoundingBox (e : Entity) : Rectangle :=
  match e.boundingBox with
  | none =>
    let scale := e.scale
    let x1 := e.position.x - e.origin.x * scale.x
    let y1 := e.position.y - e.origin.y * scale.y
    let x2 := e.position.x + (e.dimension.width - e.origin.x) * scale.x
    let y2 := e.position.y + (e.dimension.height - e.origin.y) * scale.y
    let x1' := if scale.x < 0 then x2 else x1
    let x2' := if scale.x < 0 then x1 else x2
    let y1' := if scale.y < 0 then y2 else y1
    let y2' := if scale.y < 0 then y1 else y2
    { x := x1', y := y1', width := x2' - x1', height := y2' - y1' }
  | some box =>
    { x := box.x * |e.scale.x| + e.position.x,
      y := box.y * |e.scale.y| + e.position.y,
      width := box.width * |e.scale.x|,
      height := box.height * |e.scale.y| }

/-! ## Event traces

Side effects of the embedded operations (hook invocations, the error log in
`attach`, transform push/pop in `draw`) are recorded as events. -/

inductive Ev where
  | logError
  | init (cid : ℕ)
  | attachedHook (cid : ℕ)
  | start (cid : ℕ)
  | pushTransform
  | draw (cid : ℕ)
  | postDraw (cid : ℕ)
  | popTransform
  | parentCollided (cid : ℕ)
  | onCollideSelf
deriving DecidableEq, Repr

/-! ## `Entity.prototype.attach` -/

/-- The `while (parent) { if (parent.isAdded) { if (child.start) child.start(); }
parent = parent.parent; }` loop of `attach`, walking a chain of `isAdded`
flags.  Note the loop body has no break: it emits one `start` call per
scheduler-live node on the chain. -/
def startCalls (child : Comp) : List Bool → List Ev
  | [] => []
  | isAdd :: rest =>
    (if isAdd then (if child.hasStart then [Ev.start child.cid] else []) else [])
      ++ startCalls child rest

/-- Embeds `Entity.prototype.attach` as a state transformer returning the
updated entity, the updated child and the trace of emitted events.

The scanned chain mirrors `var parent = this; if (parent.parent) { parent =
parent.parent; }`: when the entity has a parent the walk starts at that parent
and climbs the ancestor chain, otherwise it inspects the entity itself. -/
def Entity.attach (self : Entity) (child : Comp) (force : Bool) :
    Entity × Comp × List Ev :=
  if !force && (child.isAdded || child.parentSet) then
    (self, child, [Ev.logError])
  else
    let self' := { self with components := self.components ++ [some child] }
    let child' := { child with parentSet := true }
    let initEvs := if child.hasInit then [Ev.init child.cid] else []
    let attEvs := if child.hasAttached then [Ev.attachedHook child.cid] else []
    let startEvs :=
      if self.isAdded then
        if child.hasStart then [Ev.start child.cid] else []
      else
        startCalls child
          (match self.ancestorsAdded with
           | [] => [self.isAdded]
           | chain => chain)
    (self', child', initEvs ++ attEvs ++ startEvs)

/-! ## `Entity.prototype.draw` -/

/-- The forward component loop of `draw`: `component.draw(data)` on every live
component that has the hook, in list order. -/
def drawLoop : List (Option Comp) → List Ev
  | [] => []
  | none :: rest => drawLoop rest
  | some c :: rest =>
    (if c.hasDraw then [Ev.draw c.cid] else []) ++ drawLoop rest

/-- The post-draw loop body of `draw` applied to a component list; the source
iterates `for (i = components.length - 1; i >= 0; i--)`, which is the same as
running this loop on the reversed list. -/
def postDrawLoop : List (Option Comp) → List Ev
  | [] => []
  | none :: rest => postDrawLoop rest
  | some c :: rest =>
    (if c.hasPostDraw then [Ev.postDraw c.cid] else []) ++ postDrawLoop rest

/-- Embeds `Entity.prototype.draw`: bail out when not visible, otherwise push
the transform (`this.transform.draw`), run the forward draw loop, run the
post-draw loop backwards over the list, and pop the transform
(`this.transform.postDraw`). -/
def Entity.draw (e : Entity) : List Ev :=
  if !e.visible then []
  else
    [Ev.pushTransform]
      ++ drawLoop e.components
      ++ postDrawLoop e.components.reverse
      ++ [Ev.popTransform]

/-! ## `Entity.prototype.collided` -/

/-- The component loop of `collided`: `component.onParentCollided(data)` on
every live component that has the hook, in list order. -/
def collidedLoop : List (Option Comp) → List Ev
  | [] => []
  | none :: rest => collidedLoop rest
  | some c :: rest =>
    (if c.hasOnParentCollided then [Ev.parentCollided c.cid] else []) ++ collidedLoop rest

/-- Embeds `Entity.prototype.collided`.  A missing data object throws
(`throw "Must pass a data object"`); otherwise the hook dispatch runs and the
entity's own `onCollide` callback fires last when present.  The contents of the
data object are irrelevant to control flow, so it is modelled as `Option Unit`. -/
def Entity.collided (e : Entity) (data : Option Unit) : Except String (List Ev) :=
  match data with
  | none => Except.error "Must pass a data object"
  | some _ =>
    Except.ok (collidedLoop e.components
      ++ (if e.hasOnCollide then [Ev.onCollideSelf] else []))

/-! ## `Entity.prototype.collidesWith` -/

/-- An element of the scanned `array` local of `collidesWith`.  Because the
source pushes `settings.entities` (a JS array) into `array` without spreading
it (`array = [settings.entities]`), a scanned element is either an entity or a
raw entity list. -/
inductive CollideItem where
  | ent (e : Entity)
  | raw (l : List Entity)
deriving DecidableEq, Repr

/-- The settings object accepted by `collidesWith`.  The `name` and `family`
registry lookups delegate to the external object manager (out of scope per the
spec) and are not modelled; `hasCallback` records presence of
`settings.onCollide`. -/
structure CollideSettings where
  entity : Option Entity
  entities : Option (List Entity)
  offset : Option Vector2
  firstOnly : Option Bool
  hasCallback : Bool
deriving DecidableEq, Repr

/-- The accepted call shapes of `collidesWith`: the two deprecated positional
forms and the settings-object form.  A settings object carrying a `name` or
`family` key resolves its candidate array through the external object manager
(`Bento.objects.getByName` / `getByFamily`); that lookup is modelled from the
spec (section 6: the registry returns an ordered sequence of live entities),
so the `nameArg` and `familyArg` shapes carry the list the registry returned
for the key alongside the rest of the settings object. -/
inductive CollidesArg where
  | entityArg (e : Entity) (off : Option Vector2) (hasCallback : Bool)
  | arrayArg (l : List Entity) (off : Option Vector2) (hasCallback : Bool)
  | settingsArg (s : CollideSettings)
  | nameArg (s : CollideSettings) (looked : List Entity)
  | familyArg (s : CollideSettings) (looked : List Entity)
deriving DecidableEq, Repr

/-- The possible JS return values of `collidesWith`: `null`, a single entity
(`firstOnly` hit), or the accumulated `collisions` array. -/
inductive CollideResult where
  | nullRes
  | one (e : Entity)
  | many (l : List Entity)
deriving DecidableEq, Repr

/-- True exactly for an empty-but-non-null `collisions` array. -/
def CollideResult.isEmptyMany : CollideResult → Bool
  | CollideResult.many [] => true
  | _ => false

/-- The scanned `array` local of `collidesWith` for each call shape.  In the
settings forms the dispatch order is `settings.entity`, then
`settings.entities`, then the `name`/`family` registry lookup: a single entity
is wrapped (`array = [settings.entity]`), an explicit list is pushed as one
element (`array = [settings.entities]`, the raw list), and a registry result
is assigned to `array` directly, so its entities are scanned element-wise. -/
def scanItems : CollidesArg → List CollideItem
  | CollidesArg.entityArg e _ _ => [CollideItem.ent e]
  | CollidesArg.arrayArg l _ _ => l.map CollideItem.ent
  | CollidesArg.settingsArg s =>
    match s.entity with
    | some e => [CollideItem.ent e]
    | none =>
      match s.entities with
      | some l => [CollideItem.raw l]
      | none => []
  | CollidesArg.nameArg s looked =>
    match s.entity with
    | some e => [CollideItem.ent e]
    | none =>
      match s.entities with
      | some l => [CollideItem.raw l]
      | none => looked.map CollideItem.ent
  | CollidesArg.familyArg s looked =>
    match s.entity with
    | some e => [CollideItem.ent e]
    | none =>
      match s.entities with
      | some l => [CollideItem.raw l]
      | none => looked.map CollideItem.ent

/-- The effective offset of a `collidesWith` call (`new Vector2(0, 0)` when
absent). -/
def collideOffset : CollidesArg → Vector2
  | CollidesArg.entityArg _ off _ => off.getD ⟨0, 0⟩
  | CollidesArg.arrayArg _ off _ => off.getD ⟨0, 0⟩
  | CollidesArg.settingsArg s => s.offset.getD ⟨0, 0⟩
  | CollidesArg.nameArg s _ => s.offset.getD ⟨0, 0⟩
  | CollidesArg.familyArg s _ => s.offset.getD ⟨0, 0⟩

/-- The effective `firstOnly` flag: `true` unless a settings form passes a
defined `settings.firstOnly` (the deprecated forms cannot change it). -/
def collideFirstOnly : CollidesArg → Bool
  | CollidesArg.settingsArg s => s.firstOnly.getD true
  | CollidesArg.nameArg s _ => s.firstOnly.getD true
  | CollidesArg.familyArg s _ => s.firstOnly.getD true
  | _ => true

/-- Presence of the collision callback for each call shape. -/
def collideHasCallback : CollidesArg → Bool
  | CollidesArg.entityArg _ _ cb => cb
  | CollidesArg.arrayArg _ _ cb => cb
  | CollidesArg.settingsArg s => s.hasCallback
  | CollidesArg.nameArg s _ => s.hasCallback
  | CollidesArg.familyArg s _ => s.hasCallback

/-- The scan loop of `collidesWith`.  A raw-list item has neither an `id` nor a
`getBoundingBox` method, so it is never skipped and never hits.  For an entity
item the source skip test is `obj.id && obj.id === this.id`: the id must be
truthy (nonzero) and equal to this entity's id.  Hits are reported to the
callback, then either returned at once (`firstOnly`) or pushed onto the lazily
allocated `collisions` array.  The returned pair is the JS return value
together with the entities passed to the callback, in call order. -/
def collideLoop (selfId : ℕ) (box : Rectangle) (firstOnly hasCb : Bool) :
    List CollideItem → Option (List Entity) → List Entity →
    CollideResult × List Entity
  | [], collisions, cbCalls =>
    (match collisions with
     | none => CollideResult.nullRes
     | some l => CollideResult.many l,
     cbCalls)
  | CollideItem.raw _ :: rest, collisions, cbCalls =>
    collideLoop selfId box firstOnly hasCb rest collisions cbCalls
  | CollideItem.ent obj :: rest, collisions, cbCalls =>
    if obj.id ≠ 0 ∧ obj.id = selfId then
      collideLoop selfId box firstOnly hasCb rest collisions cbCalls
    else if box.intersect obj.getBoundingBox then
      let cbCalls' := if hasCb then cbCalls ++ [obj] else cbCalls
      if firstOnly then
        (CollideResult.one obj, cbCalls')
      else
        collideLoop selfId box firstOnly hasCb rest
          (some (collisions.getD [] ++ [obj])) cbCalls'
    else
      collideLoop selfId box firstOnly hasCb rest collisions cbCalls

/-- Embeds `Entity.prototype.collidesWith`: resolve the call shape into the
scanned array, offset, `firstOnly` flag and callback; return `null` when the
scanned array is empty; otherwise offset this entity's bounding box and run the
scan loop with a `null` `collisions` accumulator. -/
def Entity.collidesWith (self : Entity) (arg : CollidesArg) :
    CollideResult × List Entity :=
  let items := scanItems arg
  if items.length = 0 then
    (CollideResult.nullRes, [])
  else
    let box := (self.getBoundingBox).offset (collideOffset arg)
    collideLoop self.id box (collideFirstOnly arg) (collideHasCallback arg)
      items none []

/-- Spec-side description of an element-wise scan: the candidates that survive
the self-exclusion test and whose bounding box intersects the query box, in
candidate order. -/
def scanHits (selfId : ℕ) (box : Rectangle) (l : List Entity) : List Entity :=
  l.filter fun obj =>
    !(decide (obj.id ≠ 0 ∧ obj.id = selfId)) && box.intersect obj.getBoundingBox

/-- Spec-side description of the `firstOnly = false` return policy: `null` for
no hits, the non-empty hit collection otherwise. -/
def manyOrNull : List Entity → CollideResult
  | [] => CollideResult.nullRes
  | hits => CollideResult.many hits

/-! ## The modal component (`src/js/components/fill.js`)

Modelled from the spec: the global pause level lives in the external object
manager (`Bento.objects`), which is not among the sources; section 4.4 of the
spec describes it as a single process-wide integer read by `isPaused()` and
written by `pause(n)`.  The modal `start`/`destroy` bodies below are translated
from the modal component source. -/

/-- The per-instance state of a modal component after `start` ran:
`pauseLevel` is the level the component last set (`component.pauseLevel`),
`oldPauseLevel` the closure variable recorded from `isPaused()`. -/
structure ModalComp where
  pauseLevel : ℤ
  oldPauseLevel : ℤ
deriving DecidableEq, Repr

/-- Embeds the modal component's `start` hook: record the ambient level, bump
the requested target above it if needed (`pauseLevel < oldPauseLevel`, which is
false when the target is undefined), apply JS truthiness in
`pauseLevel || (oldPauseLevel + 1)` (both `undefined` and `0` are falsy), and
set the global level.  Returns the component state and the new global level. -/
def modalStart (target : Option ℤ) (g : ℤ) : ModalComp × ℤ :=
  let oldPauseLevel := g
  let target' : Option ℤ :=
    match target with
    | some p => if p < oldPauseLevel then some (oldPauseLevel + 1) else some p
    | none => none
  let lvl : ℤ :=
    match target' with
    | some p => if p = 0 then oldPauseLevel + 1 else p
    | none => oldPauseLevel + 1
  ({ pauseLevel := lvl, oldPauseLevel := oldPauseLevel }, lvl)

/-- Embeds the modal component's `destroy` hook: when the global level no
longer equals the level this component last set, return without touching it;
otherwise restore the recorded previous level. -/
def modalDestroy (c : ModalComp) (g : ℤ) : ℤ :=
  if g ≠ c.pauseLevel then g else c.oldPauseLevel

/-! ## The canvas2d renderer (`src/js/renderers/webgl.js`, canvas2d module) -/

/-- A normalized RGBA color array as passed across the renderer contract. -/
structure Color where
  r : ℚ
  g : ℚ
  b : ℚ
  a : ℚ
deriving DecidableEq, Repr

/-- Abstraction of the CSS hex string `#rrggbb` the canvas2d back end builds
from a color array: the three `Math.floor(c * 255)` byte values. -/
structure CssColor where
  rByte : ℤ
  gByte : ℤ
  bByte : ℤ
deriving DecidableEq, Repr

/-- The hex-string computation of canvas2d `fillRect`/`strokeRect`. -/
def cssOf (c : Color) : CssColor :=
  { rByte := ⌊c.r * 255⌋, gByte := ⌊c.g * 255⌋, bByte := ⌊c.b * 255⌋ }

/-- A drawing operation as executed by the 2d context, together with the
globalAlpha and style in force when it ran. -/
inductive CanvasOp where
  | fillRectOp (alpha : ℚ) (style : CssColor) (x y w h : ℚ)
  | strokeRectOp (alpha : ℚ) (style : CssColor) (x y w h : ℚ)
deriving DecidableEq, Repr

/-- The mutable state of a 2d canvas context touched by the embedded calls. -/
structure Context2D where
  globalAlpha : ℚ
  fillStyle : CssColor
  strokeStyle : CssColor
  ops : List CanvasOp
deriving DecidableEq, Repr

/-- Embeds canvas2d `fillRect`: remember `globalAlpha`, switch it to the
color's alpha only when that alpha differs from 1, set the fill style, fill,
and restore `globalAlpha` under the same condition. -/
def Canvas2d.fillRect (ctx : Context2D) (colorArray : Color) (x y w h : ℚ) :
    Context2D :=
  let oldOpacity := ctx.globalAlpha
  let ctx1 :=
    if colorArray.a ≠ 1 then { ctx with globalAlpha := colorArray.a } else ctx
  let ctx2 := { ctx1 with fillStyle := cssOf colorArray }
  let ctx3 := { ctx2 with
    ops := ctx2.ops ++ [CanvasOp.fillRectOp ctx2.globalAlpha ctx2.fillStyle x y w h] }
  if colorArray.a ≠ 1 then { ctx3 with globalAlpha := oldOpacity } else ctx3

/-- Embeds canvas2d `strokeRect`, same shape as `fillRect` with the stroke
style. -/
def Canvas2d.strokeRect (ctx : Context2D) (colorArray : Color) (x y w h : ℚ) :
    Context2D :=
  let oldOpacity := ctx.globalAlpha
  let ctx1 :=
    if colorArray.a ≠ 1 then { ctx with globalAlpha := colorArray.a } else ctx
  let ctx2 := { ctx1 with strokeStyle := cssOf colorArray }
  let ctx3 := { ctx2 with
    ops := ctx2.ops ++ [CanvasOp.strokeRectOp ctx2.globalAlpha ctx2.strokeStyle x y w h] }
  if colorArray.a ≠ 1 then { ctx3 with globalAlpha := oldOpacity } else ctx3

/-- Embeds canvas2d `getOpacity`. -/
def Canvas2d.getOpacity (ctx : Context2D) : ℚ :=
  ctx.globalAlpha

/-! ## `setContext` / `restoreContext` of both renderer back ends -/

/-- The context bookkeeping of the canvas2d back end: the active `context` and
the `original` captured at construction (`var context = canvas.getContext('2d'),
original = context`).  The context type is abstract. -/
structure Canvas2dRenderer (α : Type) where
  context : α
  original : α
deriving DecidableEq, Repr

/-- Canvas2d renderer construction: the active and original context coincide. -/
def Canvas2dRenderer.make {α : Type} (ctx : α) : Canvas2dRenderer α :=
  { context := ctx, original := ctx }

/-- Embeds canvas2d `setContext`. -/
def Canvas2dRenderer.setContext {α : Type} (r : Canvas2dRenderer α) (ctx : α) :
    Canvas2dRenderer α :=
  { r with context := ctx }

/-- Embeds canvas2d `restoreContext`. -/
def Canvas2dRenderer.restoreContext {α : Type} (r : Canvas2dRenderer α) :
    Canvas2dRenderer α :=
  { r with context := r.original }

/-- The context bookkeeping of the webgl back end: the active `glRenderer` and
the `original` captured at construction (`glRenderer = new
window.GlSprites.SpriteRenderer(context); ... original = glRenderer`). -/
structure WebglRenderer (α : Type) where
  glRenderer : α
  original : α
deriving DecidableEq, Repr

/-- Webgl renderer construction: the active and original gl renderer coincide. -/
def WebglRenderer.make {α : Type} (gl : α) : WebglRenderer α :=
  { glRenderer := gl, original := gl }

/-- Embeds webgl `setContext`. -/
def WebglRenderer.setContext {α : Type} (r : WebglRenderer α) (ctx : α) :
    WebglRenderer α :=
  { r with glRenderer := ctx }

/-- Embeds webgl `restoreContext`. -/
def WebglRenderer.restoreContext {α : Type} (r : WebglRenderer α) :
    WebglRenderer α :=
  { r with glRenderer := r.original }

/-! ## Concrete instances used by counterexamples and witnesses -/

/-- An entity with the constructor defaults, a given id, position and
dimension: origin `(0,0)`, scale `(1,1)`, no explicit bounding box, visible,
not scheduler-live, no parent, no components. -/
def entAt (i : ℕ) (px py w h : ℚ) : Entity :=
  { id := i, position := ⟨px, py⟩, origin := ⟨0, 0⟩, scale := ⟨1, 1⟩,
    dimension := ⟨0, 0, w, h⟩, boundingBox := none, visible := true,
    isAdded := false, ancestorsAdded := [], components := [],
    hasOnCollide := false }

/-- A 10 by 10 entity at the world origin. -/
def entT : Entity := entAt 1 0 0 10 10

/-- A 10 by 10 entity at (5, 5); its bounding box overlaps that of `entT`. -/
def entE : Entity := entAt 2 5 5 10 10

/-- A 10 by 10 entity at (100, 100); its bounding box misses that of `entT`. -/
def entF : Entity := entAt 3 100 100 10 10

/-- A unit-square entity carrying the very first auto-assigned id, 0. -/
def entZero : Entity := entAt 0 0 0 1 1

/-- A unit-square entity with a nonzero id. -/
def entOne : Entity := entAt 10 0 0 1 1

/-- An entity that is not scheduler-live itself but has two scheduler-live
ancestors on its parent chain. -/
def deepEnt : Entity := { entAt 4 0 0 0 0 with ancestorsAdded := [true, true] }

/-- An entity that is not scheduler-live itself with exactly one
scheduler-live ancestor. -/
def oneLiveEnt : Entity := { entAt 9 0 0 0 0 with ancestorsAdded := [true] }

/-- A fresh child component whose only hook is `start`. -/
def startChild : Comp :=
  { cid := 5, parentSet := false, isAdded := false, hasInit := false,
    hasAttached := false, hasStart := true, hasDraw := false,
    hasPostDraw := false, hasOnParentCollided := false }

/-- An entity with positive scale and nonzero origin for the bounding-box
witness. -/
def e3 : Entity :=
  { entAt 6 10 20 4 5 with origin := ⟨1, 1⟩, scale := ⟨2, 3⟩ }

/-- A host entity for the attach-guard witness. -/
def host : Entity := entAt 8 0 0 0 0

/-- A child component that already has a parent back-reference set. -/
def attachedChild : Comp :=
  { cid := 7, parentSet := true, isAdded := false, hasInit := true,
    hasAttached := true, hasStart := true, hasDraw := false,
    hasPostDraw := false, hasOnParentCollided := false }

end Bento

namespace Bento

/-! ## Helper lemmas -/

/-- The forward draw loop visits the components as a `filterMap`. -/
theorem drawLoop_eq_filterMap (l : List (Option Comp)) :
    drawLoop l = l.filterMap fun oc =>
      oc.bind fun c => if c.hasDraw then some (Ev.draw c.cid) else none := by
  induction l with
  | nil => rfl
  | cons oc rest ih =>
    cases oc with
    | none => simpa [drawLoop] using ih
    | some c =>
      by_cases hc : c.hasDraw <;> simp [drawLoop, hc, ih]

/-- The post-draw loop visits the components as a `filterMap`. -/
theorem postDrawLoop_eq_filterMap (l : List (Option Comp)) :
    postDrawLoop l = l.filterMap fun oc =>
      oc.bind fun c => if c.hasPostDraw then some (Ev.postDraw c.cid) else none := by
  induction l with
  | nil => rfl
  | cons oc rest ih =>
    cases oc with
    | none => simpa [postDrawLoop] using ih
    | some c =>
      by_cases hc : c.hasPostDraw <;> simp [postDrawLoop, hc, ih]

/-- The `onParentCollided` loop visits the components as a `filterMap`. -/
theorem collidedLoop_eq_filterMap (l : List (Option Comp)) :
    collidedLoop l = l.filterMap fun oc =>
      oc.bind fun c => if c.hasOnParentCollided then some (Ev.parentCollided c.cid) else none := by
  induction l with
  | nil => rfl
  | cons oc rest ih =>
    cases oc with
    | none => simpa [collidedLoop] using ih
    | some c =>
      by_cases hc : c.hasOnParentCollided <;> simp [collidedLoop, hc, ih]

/-- The start-propagation walk emits one `start` call per live chain node when
the child has the hook, and none otherwise. -/
theorem count_start_startCalls (child : Comp) (chain : List Bool) :
    (startCalls child chain).count (Ev.start child.cid) =
      if child.hasStart then chain.count true else 0 := by
  induction chain with
  | nil => simp [startCalls]
  | cons b rest ih =>
    cases b <;> cases hs : child.hasStart <;>
      simp [startCalls, List.count_cons, List.count_append, ih, hs]

/-- `setContext` never touches the canvas2d `original` context. -/
theorem canvas2d_foldl_original {α : Type} (cs : List α) (r : Canvas2dRenderer α) :
    (cs.foldl Canvas2dRenderer.setContext r).original = r.original := by
  induction cs generalizing r with
  | nil => rfl
  | cons c rest ih => simpa [Canvas2dRenderer.setContext] using ih _

/-- `setContext` never touches the webgl `original` renderer. -/
theorem webgl_foldl_original {α : Type} (cs : List α) (r : WebglRenderer α) :
    (cs.foldl WebglRenderer.setContext r).original = r.original := by
  induction cs generalizing r with
  | nil => rfl
  | cons c rest ih => simpa [WebglRenderer.setContext] using ih _

/-! ## Claim theorems -/

/-- C3: for every entity with no explicit bounding box, `getBoundingBox`
derives the rectangle from origin-relative offsets scaled by `scale`: with
positive scales its width and height are `dimension * scale` and its position
is `position - origin * scale` component-wise, and for any scale (negative
axes included, thanks to the min/max swap) its width and height are
non-negative whenever the dimension is. -/
theorem C3_getBoundingBox (e : Entity) (hb : e.boundingBox = none) :
    (0 < e.scale.x → 0 < e.scale.y →
      (e.getBoundingBox).width = e.dimension.width * e.scale.x ∧
      (e.getBoundingBox).height = e.dimension.height * e.scale.y ∧
      (e.getBoundingBox).x = e.position.x - e.origin.x * e.scale.x ∧
      (e.getBoundingBox).y = e.position.y - e.origin.y * e.scale.y) ∧
    (0 ≤ e.dimension.width → 0 ≤ e.dimension.height →
      0 ≤ (e.getBoundingBox).width ∧ 0 ≤ (e.getBoundingBox).height) := by
  simp only [Entity.getBoundingBox, hb]
  constructor
  · intro hx hy
    rw [if_neg (by linarith), if_neg (by linarith), if_neg (by linarith),
      if_neg (by linarith)]
    refine ⟨by ring, by ring, rfl, rfl⟩
  · intro hw hh
    constructor
    · by_cases hx : e.scale.x < 0
      · rw [if_pos hx, if_pos hx]
        nlinarith [mul_nonneg hw (neg_nonneg.mpr hx.le)]
      · rw [if_neg hx, if_neg hx]
        nlinarith [mul_nonneg hw (le_of_not_lt hx)]
    · by_cases hy : e.scale.y < 0
      · rw [if_pos hy, if_pos hy]
        nlinarith [mul_nonneg hh (neg_nonneg.mpr hy.le)]
      · rw [if_neg hy, if_neg hy]
        nlinarith [mul_nonneg hh (le_of_not_lt hy)]

/-- Witness for C3 at the concrete entity `e3` (positive scale `(2, 3)`,
origin `(1, 1)`, dimension 4 by 5). -/
theorem C3_getBoundingBox_witness :
    ((e3.getBoundingBox).width = e3.dimension.width * e3.scale.x ∧
      (e3.getBoundingBox).height = e3.dimension.height * e3.scale.y ∧
      (e3.getBoundingBox).x = e3.position.x - e3.origin.x * e3.scale.x ∧
      (e3.getBoundingBox).y = e3.position.y - e3.origin.y * e3.scale.y) ∧
    (0 ≤ (e3.getBoundingBox).width ∧ 0 ≤ (e3.getBoundingBox).height) := by
  obtain ⟨h1, h2⟩ := C3_getBoundingBox e3 rfl
  exact ⟨h1 (by decide) (by decide), h2 (by decide) (by decide)⟩

/-- C4: attaching a child that already has a parent back-reference or is
already scheduler-live, without `force`, only logs an error: the entity, the
child and in particular the component list are unchanged and no lifecycle hook
runs; with `force` the attach proceeds, appending the child to the component
list and setting its parent back-reference. -/
theorem C4_attach_guard (self : Entity) (child : Comp) :
    ((child.parentSet = true ∨ child.isAdded = true) →
      Entity.attach self child false = (self, child, [Ev.logError])) ∧
    (Entity.attach self child true).1.components = self.components ++ [some child] ∧
    (Entity.attach self child true).2.1 = { child with parentSet := true } := by
  refine ⟨fun h => ?_, ?_, ?_⟩
  · have hg : (child.isAdded || child.parentSet) = true := by
      rcases h with h | h <;> simp [h]
    simp [Entity.attach, hg]
  · simp [Entity.attach]
  · simp [Entity.attach]

/-- Witness for C4 at a concrete host and a child whose parent is already
set. -/
theorem C4_attach_guard_witness :
    Entity.attach host attachedChild false = (host, attachedChild, [Ev.logError]) ∧
    (Entity.attach host attachedChild true).1.components =
      host.components ++ [some attachedChild] ∧
    (Entity.attach host attachedChild true).2.1 =
      { attachedChild with parentSet := true } := by
  obtain ⟨h1, h2, h3⟩ := C4_attach_guard host attachedChild
  exact ⟨h1 (Or.inl rfl), h2, h3⟩

/-- The scan loop never produces an empty-but-non-null `collisions` array:
the accumulator is only ever allocated together with a first pushed hit. -/
theorem collideLoop_not_emptyMany (sid : ℕ) (box : Rectangle) (fo cb : Bool)
    (items : List CollideItem) :
    ∀ (collisions : Option (List Entity)) (cbs : List Entity),
      (collisions = none ∨ ∃ a l, collisions = some (a :: l)) →
      ((collideLoop sid box fo cb items collisions cbs).1).isEmptyMany = false := by
  induction items with
  | nil =>
    intro collisions cbs h
    rcases h with h | ⟨a, l, h⟩ <;> subst h <;>
      simp [collideLoop, CollideResult.isEmptyMany]
  | cons item rest ih =>
    intro collisions cbs h
    cases item with
    | raw l =>
      simp only [collideLoop]
      exact ih collisions cbs h
    | ent obj =>
      simp only [collideLoop]
      by_cases hskip : obj.id ≠ 0 ∧ obj.id = sid
      · rw [if_pos hskip]
        exact ih collisions cbs h
      · rw [if_neg hskip]
        by_cases hint : box.intersect obj.getBoundingBox
        · rw [if_pos hint]
          cases fo with
          | false =>
            simp only [Bool.false_eq_true, if_false]
            apply ih
            rcases h with h | ⟨a, l, h⟩ <;> subst h
            · exact Or.inr ⟨obj, [], by simp⟩
            · exact Or.inr ⟨a, l ++ [obj], by simp⟩
          | true =>
            simp [CollideResult.isEmptyMany]
        · rw [if_neg hint]
          exact ih collisions cbs h

/-- Unfolding of the surviving-candidate filter on a cons cell. -/
theorem scanHits_cons (sid : ℕ) (box : Rectangle) (obj : Entity)
    (rest : List Entity) :
    scanHits sid box (obj :: rest) =
      if ¬(obj.id ≠ 0 ∧ obj.id = sid) ∧ box.intersect obj.getBoundingBox = true
      then obj :: scanHits sid box rest
      else scanHits sid box rest := by
  simp only [scanHits, List.filter_cons]
  by_cases hskip : obj.id ≠ 0 ∧ obj.id = sid
  · simp [hskip]
  · by_cases hint : box.intersect obj.getBoundingBox = true
    · simp [hskip, hint]
    · simp [hskip, hint]

/-- On an element-wise scanned candidate list with `firstOnly = false`, the
scan loop accumulates exactly the surviving intersecting candidates in order:
onto an already-allocated accumulator it appends them, and from the `null`
accumulator it returns `null` for no hits and the non-empty hit list
otherwise. -/
theorem collideLoop_ents_accumulate (sid : ℕ) (box : Rectangle) (cb : Bool)
    (l : List Entity) :
    ∀ (acc cbs : List Entity),
      ((collideLoop sid box false cb (l.map CollideItem.ent) (some acc) cbs).1 =
        CollideResult.many (acc ++ scanHits sid box l)) ∧
      ((collideLoop sid box false cb (l.map CollideItem.ent) none cbs).1 =
        manyOrNull (scanHits sid box l)) := by
  induction l with
  | nil =>
    intro acc cbs
    constructor
    · simp [collideLoop, scanHits]
    · simp [collideLoop, scanHits, manyOrNull]
  | cons obj rest ih =>
    intro acc cbs
    by_cases hskip : obj.id ≠ 0 ∧ obj.id = sid
    · have hsc : scanHits sid box (obj :: rest) = scanHits sid box rest := by
        rw [scanHits_cons, if_neg]
        intro hc
        exact hc.1 hskip
      constructor
      · simp only [List.map_cons, collideLoop]
        rw [if_pos hskip, (ih acc cbs).1, hsc]
      · simp only [List.map_cons, collideLoop]
        rw [if_pos hskip, (ih acc cbs).2, hsc]
    · by_cases hint : box.intersect obj.getBoundingBox = true
      · have hsc : scanHits sid box (obj :: rest) =
            obj :: scanHits sid box rest := by
          rw [scanHits_cons, if_pos ⟨hskip, hint⟩]
        constructor
        · simp only [List.map_cons, collideLoop]
          rw [if_neg hskip, if_pos hint]
          simp only [Bool.false_eq_true, if_false, Option.getD_some]
          rw [(ih (acc ++ [obj]) (if cb = true then cbs ++ [obj] else cbs)).1,
            hsc]
          simp
        · simp only [List.map_cons, collideLoop]
          rw [if_neg hskip, if_pos hint]
          simp only [Bool.false_eq_true, if_false, Option.getD_none,
            List.nil_append]
          rw [(ih [obj] (if cb = true then cbs ++ [obj] else cbs)).1, hsc]
          simp [manyOrNull]
      · have hsc : scanHits sid box (obj :: rest) = scanHits sid box rest := by
          rw [scanHits_cons, if_neg]
          intro hc
          exact hint hc.2
        constructor
        · simp only [List.map_cons, collideLoop]
          rw [if_neg hskip, if_neg hint, (ih acc cbs).1, hsc]
        · simp only [List.map_cons, collideLoop]
          rw [if_neg hskip, if_neg hint, (ih acc cbs).2, hsc]

/-- C5: with `visible` false, `draw` is a complete no-op (no transform pushed,
no hooks); with `visible` true it pushes the transform, calls `draw` on every
live component in forward list order, calls `postDraw` on every live component
in the exact reverse of that forward order, and pops the transform. -/
theorem C5_draw (e : Entity) :
    Entity.draw e =
      if e.visible then
        [Ev.pushTransform]
          ++ (e.components.filterMap fun oc =>
              oc.bind fun c => if c.hasDraw then some (Ev.draw c.cid) else none)
          ++ ((e.components.filterMap fun oc =>
              oc.bind fun c => if c.hasPostDraw then some (Ev.postDraw c.cid) else none)).reverse
          ++ [Ev.popTransform]
      else [] := by
  cases hv : e.visible
  · simp [Entity.draw, hv]
  · simp [Entity.draw, hv, drawLoop_eq_filterMap, postDrawLoop_eq_filterMap,
      List.filterMap_reverse]

/-- C7: a modal component's `destroy` restores the pause level that was in
effect when the modal started, but only when the current global level still
equals the level the modal last set; otherwise it leaves the global level
unchanged. -/
theorem C7_modal_destroy (target : Option ℤ) (g0 g : ℤ) :
    modalDestroy (modalStart target g0).1 g =
      if g = ((modalStart target g0).1).pauseLevel then g0 else g := by
  have hold : ((modalStart target g0).1).oldPauseLevel = g0 := by
    cases target <;> simp [modalStart]
  by_cases hg : g = ((modalStart target g0).1).pauseLevel
  · simp [modalDestroy, hg, hold]
  · simp [modalDestroy, hg]

/-- C8: calling `collided` without a data object throws immediately; with a
data object it dispatches `onParentCollided` to every live component in list
order and then fires the entity's own `onCollide` callback when present. -/
theorem C8_collided (e : Entity) :
    Entity.collided e none = Except.error "Must pass a data object" ∧
    Entity.collided e (some ()) =
      Except.ok ((e.components.filterMap fun oc =>
          oc.bind fun c =>
            if c.hasOnParentCollided then some (Ev.parentCollided c.cid) else none)
        ++ (if e.hasOnCollide then [Ev.onCollideSelf] else [])) := by
  exact ⟨rfl, by simp [Entity.collided, collidedLoop_eq_filterMap]⟩

/-- C9: the canvas2d `fillRect` and `strokeRect` leave the renderer opacity
unchanged for every color array and rectangle, whether or not the color's
alpha component equals 1. -/
theorem C9_fillRect_opacity (ctx : Context2D) (col : Color) (x y w h : ℚ) :
    Canvas2d.getOpacity (Canvas2d.fillRect ctx col x y w h) =
      Canvas2d.getOpacity ctx ∧
    Canvas2d.getOpacity (Canvas2d.strokeRect ctx col x y w h) =
      Canvas2d.getOpacity ctx := by
  constructor <;> by_cases ha : col.a = 1 <;>
    simp [Canvas2d.fillRect, Canvas2d.strokeRect, Canvas2d.getOpacity, ha]

/-- C10: for both renderer back ends, one `restoreContext` call makes the
active drawing context the one captured at construction, regardless of how
many intervening `setContext` calls were made. -/
theorem C10_restoreContext (α : Type) (init : α) (cs : List α) :
    ((cs.foldl Canvas2dRenderer.setContext
        (Canvas2dRenderer.make init)).restoreContext).context = init ∧
    ((cs.foldl WebglRenderer.setContext
        (WebglRenderer.make init)).restoreContext).glRenderer = init := by
  constructor
  · simp [Canvas2dRenderer.restoreContext, canvas2d_foldl_original,
      Canvas2dRenderer.make]
  · simp [WebglRenderer.restoreContext, webgl_foldl_original,
      WebglRenderer.make]

/-- C1 counterexample: `entE` overlaps `entT` under the specified half-open
AABB test, yet `collidesWith` with `settings.entities = [entE]` and
`firstOnly = false` returns `null` instead of the collection of hits (the list
is pushed into the scanned array unspread); and against the non-empty,
non-intersecting candidate `entF` the call returns `null`, not an
empty-but-non-null collection. -/
theorem C1_counterexample :
    (Entity.collidesWith entT (CollidesArg.settingsArg
        ⟨none, some [entE], none, some false, false⟩)).1 = CollideResult.nullRes ∧
    Rectangle.intersect (entT.getBoundingBox) (entE.getBoundingBox) = true ∧
    (Entity.collidesWith entT (CollidesArg.settingsArg
        ⟨some entF, none, none, some false, false⟩)).1 = CollideResult.nullRes := by
  refine ⟨rfl, ?_, ?_⟩
  · norm_num [Rectangle.intersect, Entity.getBoundingBox, entT, entE, entAt]
  · have hint : ((entT.getBoundingBox).offset ⟨0, 0⟩).intersect
        (entF.getBoundingBox) = false := by
      norm_num [Rectangle.intersect, Rectangle.offset, Entity.getBoundingBox,
        entT, entF, entAt]
    simp only [Entity.collidesWith, scanItems, collideOffset, collideFirstOnly,
      collideHasCallback, Option.getD_none, Option.getD_some, List.length_cons,
      List.length_nil]
    rw [if_neg (by simp)]
    simp only [collideLoop]
    rw [if_neg (by decide), hint]
    simp [collideLoop]

/-- C1 amended: with `firstOnly = false`, a list passed as `settings.entities`
is pushed into the scanned array as a single raw element, so the call returns
`null` whatever the list holds; no call shape ever returns an
empty-but-non-null collection (`null` covers both the empty candidate set and
the no-hit scan, which are therefore not distinguishable); and on the
element-wise scanned paths — `settings.entity` and the `name`/`family`
registry lookups — the call returns the ordered collection of all surviving
hit candidates when there are hits, and `null` otherwise. -/
theorem C1_amended :
    (∀ (self : Entity) (l : List Entity) (off : Option Vector2)
        (fo : Option Bool) (cb : Bool),
      (Entity.collidesWith self (CollidesArg.settingsArg
          ⟨none, some l, off, fo, cb⟩)).1 = CollideResult.nullRes) ∧
    (∀ (self : Entity) (arg : CollidesArg),
      ((Entity.collidesWith self arg).1).isEmptyMany = false) ∧
    (∀ (self : Entity) (e : Entity) (off : Option Vector2) (cb : Bool),
      (Entity.collidesWith self (CollidesArg.settingsArg
          ⟨some e, none, off, some false, cb⟩)).1 =
        manyOrNull (scanHits self.id
          ((self.getBoundingBox).offset (off.getD ⟨0, 0⟩)) [e])) ∧
    (∀ (self : Entity) (looked : List Entity) (off : Option Vector2) (cb : Bool),
      (Entity.collidesWith self (CollidesArg.nameArg
          ⟨none, none, off, some false, cb⟩ looked)).1 =
        manyOrNull (scanHits self.id
          ((self.getBoundingBox).offset (off.getD ⟨0, 0⟩)) looked)) ∧
    (∀ (self : Entity) (looked : List Entity) (off : Option Vector2) (cb : Bool),
      (Entity.collidesWith self (CollidesArg.familyArg
          ⟨none, none, off, some false, cb⟩ looked)).1 =
        manyOrNull (scanHits self.id
          ((self.getBoundingBox).offset (off.getD ⟨0, 0⟩)) looked)) := by
  refine ⟨fun self l off fo cb => rfl, fun self arg => ?_,
    fun self e off cb => ?_, fun self looked off cb => ?_,
    fun self looked off cb => ?_⟩
  · show ((Entity.collidesWith self arg).1).isEmptyMany = false
    unfold Entity.collidesWith
    cases hitems : scanItems arg with
    | nil => simp [CollideResult.isEmptyMany]
    | cons it rest =>
      simp only [List.length_cons]
      rw [if_neg (by simp)]
      exact collideLoop_not_emptyMany _ _ _ _ _ _ _ (Or.inl rfl)
  · show (Entity.collidesWith self (CollidesArg.settingsArg
        ⟨some e, none, off, some false, cb⟩)).1 = _
    simp only [Entity.collidesWith, scanItems, collideOffset, collideFirstOnly,
      collideHasCallback, Option.getD_some, List.length_cons, List.length_nil]
    rw [if_neg (by simp)]
    have h := (collideLoop_ents_accumulate self.id
      ((self.getBoundingBox).offset (off.getD ⟨0, 0⟩)) cb [e] [] []).2
    simpa using h
  · show (Entity.collidesWith self (CollidesArg.nameArg
        ⟨none, none, off, some false, cb⟩ looked)).1 = _
    cases hl : looked with
    | nil => simp [Entity.collidesWith, scanItems, manyOrNull, scanHits]
    | cons a t =>
      simp only [Entity.collidesWith, scanItems, collideOffset,
        collideFirstOnly, collideHasCallback, Option.getD_some,
        List.map_cons, List.length_cons]
      rw [if_neg (by simp)]
      have h := (collideLoop_ents_accumulate self.id
        ((self.getBoundingBox).offset (off.getD ⟨0, 0⟩)) cb (a :: t) [] []).2
      simpa using h
  · show (Entity.collidesWith self (CollidesArg.familyArg
        ⟨none, none, off, some false, cb⟩ looked)).1 = _
    cases hl : looked with
    | nil => simp [Entity.collidesWith, scanItems, manyOrNull, scanHits]
    | cons a t =>
      simp only [Entity.collidesWith, scanItems, collideOffset,
        collideFirstOnly, collideHasCallback, Option.getD_some,
        List.map_cons, List.length_cons]
      rw [if_neg (by simp)]
      have h := (collideLoop_ents_accumulate self.id
        ((self.getBoundingBox).offset (off.getD ⟨0, 0⟩)) cb (a :: t) [] []).2
      simpa using h

/-- C2 counterexample: attaching a child with a `start` hook to an entity that
is not itself scheduler-live but has two scheduler-live ancestors fires the
child's `start` hook twice during the attach call — the propagation loop has
no break — contradicting "exactly once". -/
theorem C2_counterexample :
    ((Entity.attach deepEnt startChild false).2.2).count (Ev.start startChild.cid) = 2 := by
  decide

/-- C2 amended: during a non-blocked attach, a child's `start` hook fires once
when the attaching entity is itself scheduler-live, and otherwise once per
scheduler-live ancestor on the parent chain — so exactly once when exactly one
chain node is live, but once per live ancestor when several are live, and not
at all when none is. -/
theorem C2_amended (self : Entity) (child : Comp) (force : Bool)
    (h : force = true ∨ (child.isAdded = false ∧ child.parentSet = false)) :
    ((Entity.attach self child force).2.2).count (Ev.start child.cid) =
      if child.hasStart = false then 0
      else if self.isAdded = true then 1
      else self.ancestorsAdded.count true := by
  have hg : (!force && (child.isAdded || child.parentSet)) = false := by
    rcases h with h | ⟨h1, h2⟩
    · simp [h]
    · simp [h1, h2]
  have hInit : List.count (Ev.start child.cid)
      (if child.hasInit then [Ev.init child.cid] else []) = 0 := by
    by_cases hi : child.hasInit <;> simp [hi]
  have hAtt : List.count (Ev.start child.cid)
      (if child.hasAttached then [Ev.attachedHook child.cid] else []) = 0 := by
    by_cases hi : child.hasAttached <;> simp [hi]
  simp only [Entity.attach, hg, Bool.false_eq_true, if_false,
    List.count_append, hInit, hAtt, Nat.zero_add]
  by_cases hS : self.isAdded = true
  · simp only [hS, if_true]
    by_cases hstart : child.hasStart <;> simp [hstart]
  · have hS' : self.isAdded = false := by simpa using hS
    simp only [hS', Bool.false_eq_true, if_false]
    rcases hA : self.ancestorsAdded with _ | ⟨b, rest⟩
    · simp only [hA, count_start_startCalls]
      by_cases hstart : child.hasStart <;> simp [hstart, hS']
    · simp only [hA, count_start_startCalls]
      by_cases hstart : child.hasStart <;> simp [hstart]

/-- Witness for C2 amended: with exactly one scheduler-live ancestor the
`start` hook fires exactly once. -/
theorem C2_amended_witness :
    ((Entity.attach oneLiveEnt startChild false).2.2).count (Ev.start startChild.cid) = 1 :=
  (C2_amended oneLiveEnt startChild false (Or.inr ⟨rfl, rfl⟩)).trans (by decide)

/-- C6, evaluated at the failing input: an entity carrying the auto-assigned
id 0 is not skipped by the `obj.id && obj.id === this.id` self-exclusion test
(0 is falsy), so it is reported as colliding with itself and passed to the
callback, while the same scan with a nonzero id skips self and returns
`null`. -/
theorem C6_id_zero_not_skipped :
    Entity.collidesWith entZero (CollidesArg.settingsArg
        ⟨some entZero, none, none, none, true⟩) =
      (CollideResult.one entZero, [entZero]) ∧
    (Entity.collidesWith entOne (CollidesArg.settingsArg
        ⟨some entOne, none, none, none, true⟩)).1 = CollideResult.nullRes := by
  constructor
  · have hint : ((entZero.getBoundingBox).offset ⟨0, 0⟩).intersect
        (entZero.getBoundingBox) = true := by
      norm_num [Rectangle.intersect, Rectangle.offset, Entity.getBoundingBox,
        entZero, entAt]
    simp only [Entity.collidesWith, scanItems, collideOffset, collideFirstOnly,
      collideHasCallback, Option.getD_none, Option.getD_some, List.length_cons,
      List.length_nil]
    rw [if_neg (by simp)]
    simp only [collideLoop]
    rw [if_neg (by decide), hint]
    simp [collideLoop]
  · simp only [Entity.collidesWith, scanItems, collideOffset, collideFirstOnly,
      collideHasCallback, Option.getD_none, Option.getD_some, List.length_cons,
      List.length_nil]
    rw [if_neg (by simp)]
    simp only [collideLoop]
    rw [if_pos (by decide)]

end Bento
